import Mathlib

/-!
Verification of the r2env package manager core (`r2env/package_manager.py`).

The development shallowly embeds the pure decision logic of the source:
the asset-name normalizer and profile (catalog) builder from
`PackageManager.update_radare2_profiles`, the catalog lookups
(`_if_package_not_available`, `_get_pkgname`, `_get_disturl`), and the
install/uninstall orchestration (`install_package`, `uninstall_package`,
`_install_from_dist`, `_uninstall_from_dist`, `list_installed_packages`)
over an explicit model of the slice of the filesystem the code touches.

External collaborators (network, git, build toolchains, system package
managers) are modeled as boolean outcome parameters; the current platform
identifier (`host_distname`, whose definition is not part of this tree)
is passed in as a string parameter.
-/

namespace R2Env

/-- Errors raised by the code under verification.  `PackageManagerException`
raise sites in `package_manager.py` each get one constructor; the last three
constructors model unhandled Python exceptions (`TypeError`, `ValueError`,
`FileExistsError`) that the code can hit. -/
inductive PMErr where
  | packageNotAvailable (profile version : String)
  | installFailedDist (profile version : String)
  | installFailedBuild (profile version logfile : String)
  | packageNotInstalled (package_name : String)
  | uninstallRemoveFailed (path : String)
  | unsupportedOS
  | downloadFailed (profile : String)
  | windowsInstallFailed
  | acrNotSupported
  | missingPrerequisiteTool
  | typeError
  | valueError
  | fileExistsError
  deriving DecidableEq, Repr

/-- Result of running a piece of the Python code: either a value, or an
exception propagating out. -/
inductive Res (α : Type) where
  | ok (val : α)
  | raised (err : PMErr)
  deriving DecidableEq, Repr

/- ## Asset Normalizer (`update_radare2_profiles`, lines 67-112) -/

/-- Last index of character `c` in `l` (Python `str.rfind`), if present. -/
def rfindIdx (c : Char) : List Char → Option Nat
  | [] => none
  | x :: xs =>
    match rfindIdx c xs with
    | some i => some (i + 1)
    | none => if x = c then some 0 else none

/-- `os.path.splitext` (posixpath): split at the last dot, unless every
character of the basename before that dot is itself a dot. -/
def splitext (l : List Char) : List Char × List Char :=
  match rfindIdx '.' l with
  | none => (l, [])
  | some dotIndex =>
    let after : Nat :=
      match rfindIdx '/' l with
      | none => 0
      | some s => s + 1
    if after ≤ dotIndex then
      let base := (l.take dotIndex).drop after
      if base.any (fun ch => ch != '.') then (l.take dotIndex, l.drop dotIndex)
      else (l, [])
    else (l, [])

/-- Python `str.split(c)` for a single-character separator: always returns a
nonempty list, keeps empty fields. -/
def splitOnChar (c : Char) : List Char → List (List Char)
  | [] => [[]]
  | x :: xs =>
    if x = c then [] :: splitOnChar c xs
    else
      match splitOnChar c xs with
      | t :: ts => (x :: t) :: ts
      | [] => [[x]]

/-- The file extension of an asset name, dot included (`asset_ext`). -/
def assetExt (assetName : String) : String :=
  String.mk (splitext assetName.data).2

/-- The token sequence of an asset name (`asset_ref`): take the stem,
normalize underscores to hyphens, split on hyphens. -/
def assetTokens (assetName : String) : List String :=
  (splitOnChar '-' ((splitext assetName.data).1.map
    (fun ch => if ch = '_' then '-' else ch))).map String.mk

/-- Python dict lookup over an insertion-ordered association list. -/
def dictLookup {α : Type} : List (String × α) → String → Option α
  | [], _ => none
  | (k, v) :: rest, key => if k = key then some v else dictLookup rest key

/-- The static `_VERSION_FILTERS` table: extension → ordered list of
(platform identifier, candidate residual token patterns). -/
def _VERSION_FILTERS : List (String × List (String × List (List String))) :=
  [(".zip", [("w32", [["w32"]]), ("w64", [["w64"]])]),
   (".deb", [("deb_i386", [["i386"]]), ("deb_x64", [["amd64"]])]),
   (".pkg", [("mac_arm64", [["m1"]]), ("mac_x64", [[], ["amd64"], ["x64"], ["macos"]])])]

/-- Scan the platform patterns for one extension in declaration order; first
platform whose candidate list contains the residual wins. -/
def findPlatform : List (String × List (List String)) → List String → Option String
  | [], _ => none
  | (platform, refs) :: rest, residual =>
    if residual ∈ refs then some platform else findPlatform rest residual

/-- The final table dispatch of the normalizer (`if asset_ext in
_VERSION_FILTERS: for platform, refs in ...`). -/
def matchFilters (ext : String) (residual : List String) : Option String :=
  match dictLookup _VERSION_FILTERS ext with
  | none => none
  | some platforms => findPlatform platforms residual

/-- The Asset Normalizer: given a release tag and an asset filename, decide
which platform identifier (if any) the asset provides.  Mirrors the body of
the per-asset loop in `update_radare2_profiles`.  The two `continue`
branches return `ok none`; the second `asset_ref.remove(release['tag_name'])`
is Python `list.remove`, which raises `ValueError` when the element is
absent (reachable when the tag equals the already-removed `'radare2'`
token and occurs only once). -/
def classify (tag : String) (assetName : String) : Res (Option String) :=
  let ext := assetExt assetName
  let toks := assetTokens assetName
  if toks.headD "" ≠ "radare2" then .ok none
  else if tag ∉ toks then .ok none
  else
    let r1 := toks.erase "radare2"
    if tag ∈ r1 then .ok (matchFilters ext (r1.erase tag))
    else .raised .valueError

/- ## Catalog Builder (`update_radare2_profiles`) -/

/-- One catalog version: a tag plus the platform → artifact-name mapping,
in insertion order (Python dict). -/
structure Version where
  id : String
  packages : List (String × String)
  deriving DecidableEq, Repr

/-- One catalog profile entry. -/
structure Profile where
  source : String
  versions : List Version
  deriving DecidableEq, Repr

/-- The catalog: package name → profile, in insertion order. -/
abbrev Profiles := List (String × Profile)

/-- One upstream release as delivered by the GitHub API: a tag and the
asset names in declared order. -/
structure Release where
  tag_name : String
  assets : List String
  deriving DecidableEq, Repr

/-- Python dict assignment `d[k] = v`: overwrite in place if the key is
present, else append. -/
def insertOverwrite : List (String × String) → String → String → List (String × String)
  | [], k, v => [(k, v)]
  | (k', v') :: rest, k, v =>
    if k' = k then (k, v) :: rest else (k', v') :: insertOverwrite rest k v

/-- Process one asset of a release into the accumulating `packages` dict:
skip unclassified assets, overwrite on platform collision, propagate a
crash. -/
def buildStep (tag : String) (acc : Res (List (String × String))) (assetName : String) :
    Res (List (String × String)) :=
  match acc with
  | .raised e => .raised e
  | .ok m =>
    match classify tag assetName with
    | .raised e => .raised e
    | .ok none => .ok m
    | .ok (some platform) => .ok (insertOverwrite m platform assetName)

/-- The platform → artifact mapping of one release, from its assets in
declared order. -/
def buildPackages (tag : String) (assets : List String) : Res (List (String × String)) :=
  assets.foldl (buildStep tag) (.ok [])

/-- Build one catalog `Version` from one release. -/
def buildVersion (r : Release) : Res Version :=
  match buildPackages r.tag_name r.assets with
  | .raised e => .raised e
  | .ok pkgs => .ok { id := r.tag_name, packages := pkgs }

/-- Build the versions for every release, in delivered order; the first
crash aborts the whole rebuild (as an uncaught exception would). -/
def buildVersions : List Release → Res (List Version)
  | [] => .ok []
  | r :: rest =>
    match buildVersion r with
    | .raised e => .raised e
    | .ok v =>
      match buildVersions rest with
      | .raised e => .raised e
      | .ok vs => .ok (v :: vs)

/-- The synthetic always-latest-source version (`{'id': 'git', 'packages': {}}`). -/
def gitVersion : Version := { id := "git", packages := [] }

/-- The catalog produced by `update_radare2_profiles` from the upstream
release list (delivered newest-first): the five static source-only
companion packages, then the primary package whose version list is
`([git] ++ per-release versions)[::-1]`. -/
def update_radare2_profiles (releases : List Release) : Res Profiles :=
  match buildVersions releases with
  | .raised e => .raised e
  | .ok vs =>
    .ok [("r2frida", { source := "https://github.com/nowsecure/r2frida", versions := [gitVersion] }),
         ("r2dec", { source := "https://github.com/wargio/r2dec-js", versions := [gitVersion] }),
         ("r2yara", { source := "https://github.com/radareorg/r2yara", versions := [gitVersion] }),
         ("r2ghidra", { source := "https://github.com/radareorg/r2ghidra", versions := [gitVersion] }),
         ("r0", { source := "https://github.com/radareorg/r0", versions := [gitVersion] }),
         ("radare2", { source := "https://github.com/radareorg/radare2",
                       versions := (gitVersion :: vs).reverse })]

/- ## Serialization (`json.dump(profiles, f)`) -/

/-- Hexadecimal digit, lowercase, as `json.dump` emits. -/
def hexDigit (n : Nat) : Char :=
  if n < 10 then Char.ofNat (48 + n) else Char.ofNat (87 + n)

/-- Four-digit hexadecimal rendering for a `\uXXXX` escape. -/
def toHex4 (n : Nat) : String :=
  String.mk [hexDigit (n / 4096 % 16), hexDigit (n / 256 % 16),
             hexDigit (n / 16 % 16), hexDigit (n % 16)]

/-- Escape one character the way `json.dump` (default `ensure_ascii=True`)
does: printable ASCII other than quote and backslash passes through,
everything else is escaped. -/
def jsonEscapeChar (c : Char) : String :=
  if c = '"' then "\\\""
  else if c = '\\' then "\\\\"
  else if c = '\n' then "\\n"
  else if c = '\r' then "\\r"
  else if c = '\t' then "\\t"
  else if c.toNat = 8 then "\\b"
  else if c.toNat = 12 then "\\f"
  else if c.toNat < 32 then "\\u" ++ toHex4 c.toNat
  else if c.toNat < 127 then String.mk [c]
  else if c.toNat < 65536 then "\\u" ++ toHex4 c.toNat
  else
    "\\u" ++ toHex4 (55296 + (c.toNat - 65536) / 1024) ++
    "\\u" ++ toHex4 (56320 + (c.toNat - 65536) % 1024)

/-- A JSON string literal. -/
def jsonString (s : String) : String :=
  "\"" ++ String.join (s.data.map jsonEscapeChar) ++ "\""

/-- A JSON object for a `packages` dict, with `json.dump`'s default
separators. -/
def jsonPackages (pkgs : List (String × String)) : String :=
  "\x7b" ++ String.intercalate ", "
    (pkgs.map (fun kv => jsonString kv.1 ++ ": " ++ jsonString kv.2)) ++ "\x7d"

/-- A JSON object for one version. -/
def jsonVersion (v : Version) : String :=
  "\x7b" ++ jsonString "id" ++ ": " ++ jsonString v.id ++ ", " ++
  jsonString "packages" ++ ": " ++ jsonPackages v.packages ++ "\x7d"

/-- A JSON object for one profile. -/
def jsonProfile (p : Profile) : String :=
  "\x7b" ++ jsonString "source" ++ ": " ++ jsonString p.source ++ ", " ++
  jsonString "versions" ++ ": [" ++
  String.intercalate ", " (p.versions.map jsonVersion) ++ "]\x7d"

/-- The serialized catalog (`profiles.json` content). -/
def serializeProfiles (ps : Profiles) : String :=
  "\x7b" ++ String.intercalate ", "
    (ps.map (fun kv => jsonString kv.1 ++ ": " ++ jsonProfile kv.2)) ++ "\x7d"

/- ## Catalog lookups (`_if_package_not_available`, `_get_pkgname`, `_get_disturl`) -/

/-- `PackageManager._if_package_not_available`: true when the profile is
unknown or none of its versions carries the requested id. -/
def if_package_not_available (pkgs : Profiles) (profile version : String) : Bool :=
  match dictLookup pkgs profile with
  | some prof => !(prof.versions.any (fun v => v.id == version))
  | none => true

/-- Inner loops of `_get_pkgname`: scan the version list in order; on a
version with the requested id, return its artifact for the platform if
present, otherwise keep scanning the remaining versions. -/
def findPkgName : List Version → String → String → Option String
  | [], _, _ => none
  | v :: rest, version, cos =>
    if v.id = version then
      match dictLookup v.packages cos with
      | some n => some n
      | none => findPkgName rest version cos
    else findPkgName rest version cos

/-- `PackageManager._get_pkgname`. -/
def get_pkgname (pkgs : Profiles) (profile version cos : String) : Option String :=
  match dictLookup pkgs profile with
  | none => none
  | some prof => findPkgName prof.versions version cos

/-- `PackageManager.DOWNLOAD_URL`. -/
def DOWNLOAD_URL : String := "https://github.com/radareorg/radare2/releases/download/"

/-- `PackageManager._get_disturl`: `"/".join([DOWNLOAD_URL, version, pkgname])`. -/
def get_disturl (pkgs : Profiles) (profile version cos : String) : Option String :=
  match get_pkgname pkgs profile version cos with
  | some pkgname => some (DOWNLOAD_URL ++ "/" ++ version ++ "/" ++ pkgname)
  | none => none

/- ## Filesystem model -/

/-- One immediate entry of the `versions` directory: a name that is either a
subdirectory or a plain file. -/
structure Entry where
  name : String
  isDir : Bool
  deriving DecidableEq, Repr

/-- The slice of the filesystem the orchestrator touches: whether the `log`
directory exists, which source working directories exist under `src/`,
the `versions` directory (absent, or its entries), whether the `bin`
directory of the Windows binary install exists, and which build log files
exist. -/
structure FS where
  logDir : Bool
  srcDirs : List String
  versionsDir : Option (List Entry)
  binDir : Bool
  logFiles : List String
  deriving DecidableEq, Repr

/-- `PackageManager.list_installed_packages`: if the `versions` directory
exists, the names of its entries that are themselves directories, else the
empty list. -/
def list_installed_packages (fs : FS) : List String :=
  match fs.versionsDir with
  | none => []
  | some es => (es.filter (fun e => e.isDir)).map (fun e => e.name)

/-- `if not os.path.isdir(dst_dir): os.makedirs(dst_dir)` for the
destination key under `versions/`: no-op when the directory already
exists, `FileExistsError` when a plain file occupies the path, otherwise
create it (creating `versions/` itself if needed). -/
def mkdirDst (fs : FS) (k : String) : Res FS :=
  match fs.versionsDir with
  | none => .ok { fs with versionsDir := some [⟨k, true⟩] }
  | some es =>
    if es.any (fun e => e.name == k && e.isDir) then .ok fs
    else if es.any (fun e => e.name == k) then .raised .fileExistsError
    else .ok { fs with versionsDir := some (es ++ [⟨k, true⟩]) }

/-- `if os.path.isdir(dst_dir): shutil.rmtree(dst_dir)`: recursively remove
the directory entry at the destination key, if one exists. -/
def rmDst (fs : FS) (k : String) : FS :=
  match fs.versionsDir with
  | none => fs
  | some es =>
    if es.any (fun e => e.name == k && e.isDir) then
      { fs with versionsDir := some (es.filter (fun e => !(e.name == k && e.isDir))) }
    else fs

/-- Lines 153-156 of `install_package`: ensure the log directory and the
source working directory for the profile exist. -/
def ensureLogSrc (fs : FS) (profile : String) : FS :=
  let fs1 := { fs with logDir := true }
  { fs1 with srcDirs :=
      if profile ∈ fs1.srcDirs then fs1.srcDirs else fs1.srcDirs ++ [profile] }

/-- Lines 153-158 of `install_package`: ensure the log directory, the source
working directory for the profile, and the destination directory exist,
in that order, before any validation. -/
def prepareDirs (fs : FS) (profile key : String) : Res FS :=
  mkdirDst (ensureLogSrc fs profile) key

/- ## Binary-distribution install/uninstall strategies -/

/-- Python's substring test `needle in hay` on strings (used by the code as
`if dist_name in "w64"` and `if dist_name in "android"`). -/
def isPrefixChars : List Char → List Char → Bool
  | [], _ => true
  | _ :: _, [] => false
  | a :: as, b :: bs => a == b && isPrefixChars as bs

/-- Substring occurrence over character lists. -/
def isInfixChars (needle hay : List Char) : Bool :=
  isPrefixChars needle hay ||
    match hay with
    | [] => false
    | _ :: t => isInfixChars needle t

/-- Python `needle in hay` for strings. -/
def pyInStr (needle hay : String) : Bool := isInfixChars needle.data hay.data

/-- `PackageManager._uninstall_from_dist`.  On a Windows-archive platform it
removes the `bin` directory (a missing directory makes `shutil.rmtree`
raise, which the code rewraps); on the other recognized platforms it shells
out to the native package manager, whose exit status is `sysOk`; any other
platform identifier raises. -/
def uninstall_from_dist (fs : FS) (_profile _version : String) (cos : String)
    (sysOk : Bool) : FS × Res Bool :=
  if pyInStr cos "w64" then
    if fs.binDir then ({ fs with binDir := false }, .ok true)
    else (fs, .raised (.uninstallRemoveFailed "bin"))
  else if cos = "mac_x64" ∨ cos = "mac_arm64" then (fs, .ok sysOk)
  else if cos = "deb_x64" ∨ cos = "deb_i386" then (fs, .ok sysOk)
  else if pyInStr cos "android" then (fs, .ok sysOk)
  else (fs, .raised .unsupportedOS)

/-- `PackageManager._install_windows_package`, with the archive extraction
and file copies abstracted into the single outcome `zipOk`: success creates
the `bin` directory and returns true; failure first runs
`_uninstall_from_dist("radare2", "latest")` (removing `bin`; a failure of
that removal raises in its place) and then raises. -/
def install_windows_package (fs : FS) (zipOk : Bool) : FS × Res Bool :=
  if zipOk then ({ fs with binDir := true }, .ok true)
  else
    match uninstall_from_dist fs "radare2" "latest" "w64" true with
    | (fs', .ok _) => (fs', .raised .windowsInstallFailed)
    | (fs', .raised e) => (fs', .raised e)

/-- `PackageManager._install_from_dist`.  The artifact name for
(profile, version, platform) is resolved through the catalog; when none
exists, the code computes `"/".join([self._r2env_path, "src", pkgname])`
with `pkgname = None`, which raises `TypeError` (there is no explicit
no-artifact check).  Then the download runs (outcome `downloadOk`; failure
raises), and the platform-specific installer is dispatched on the platform
identifier string; an unrecognized identifier raises. -/
def install_from_dist (pkgs : Profiles) (r2env_path : String) (fs : FS)
    (profile version cos : String) (downloadOk sysOk zipOk : Bool) : FS × Res Bool :=
  match get_pkgname pkgs profile version cos with
  | none => (fs, .raised .typeError)
  | some pkgname =>
    let _pkgfile := r2env_path ++ "/src/" ++ pkgname
    if !downloadOk then (fs, .raised (.downloadFailed profile))
    else if cos = "mac_x64" ∨ cos = "mac_arm64" then (fs, .ok sysOk)
    else if pyInStr cos "w64" then install_windows_package fs zipOk
    else if cos = "deb_x64" ∨ cos = "deb_i386" then (fs, .ok sysOk)
    else if pyInStr cos "android" then (fs, .ok sysOk)
    else (fs, .raised .unsupportedOS)

/- ## From-source build strategy -/

/-- `PackageManager._build_from_source` followed by `_build_using_acr` /
`_build_using_meson`.  Modelled from the spec for the prerequisite check:
`exit_if_not_exists` is imported from a module not present in this tree, so
its "absence of the underlying tool is a precondition failure reported
before any state mutation" behavior is collapsed into the single outcome
`toolsOk` (covering git, make, meson, ninja).  The git fetch and clean
touch only the source working directory's contents, which the state does
not track.  The acr strategy refuses to run on the Windows platform.
Running either build command creates the log file through shell
redirection whether or not the build succeeds (`buildOk`). -/
def build_from_source (fs : FS) (cos : String) (use_meson : Bool)
    (toolsOk buildOk : Bool) (logfile : String) : FS × Res Bool :=
  if !toolsOk then (fs, .raised .missingPrerequisiteTool)
  else if !use_meson && pyInStr cos "w64" then (fs, .raised .acrNotSupported)
  else ({ fs with logFiles := logfile :: fs.logFiles }, .ok buildOk)

/- ## Install/uninstall orchestrator -/

/-- `PackageManager.install_package`.  Prepares the log, source, and
destination directories, then validates the (profile, version) pair against
the catalog — removing the destination directory again before raising when
it is absent — then delegates to the binary-distribution or from-source
strategy; a strategy that reports failure triggers removal of the
destination directory before `InstallFailed` is raised (naming the log file
for source builds), while a strategy that raises propagates its exception
with no cleanup. -/
def install_package (pkgs : Profiles) (r2env_path : String) (fs : FS)
    (profile version : String) (use_meson use_dist : Bool) (cos : String)
    (downloadOk sysOk zipOk toolsOk buildOk : Bool) (logfile : String) :
    FS × Res Unit :=
  match prepareDirs fs profile (profile ++ "@" ++ version) with
  | .raised e => (ensureLogSrc fs profile, .raised e)
  | .ok fs3 =>
    if if_package_not_available pkgs profile version then
      (rmDst fs3 (profile ++ "@" ++ version), .raised (.packageNotAvailable profile version))
    else if use_dist then
      match install_from_dist pkgs r2env_path fs3 profile version cos downloadOk sysOk zipOk with
      | (fs4, .ok true) => (fs4, .ok ())
      | (fs4, .ok false) =>
        (rmDst fs4 (profile ++ "@" ++ version), .raised (.installFailedDist profile version))
      | (fs4, .raised e) => (fs4, .raised e)
    else
      match build_from_source fs3 cos use_meson toolsOk buildOk logfile with
      | (fs4, .ok true) => (fs4, .ok ())
      | (fs4, .ok false) =>
        (rmDst fs4 (profile ++ "@" ++ version),
         .raised (.installFailedBuild profile version logfile))
      | (fs4, .raised e) => (fs4, .raised e)

/-- `PackageManager.uninstall_package`.  Scan the installed-package list for
the key; when absent, raise.  When present, dist mode splits the key at
`"@"` (a key without exactly one separator makes the tuple unpacking raise
`ValueError`) and dispatches to `_uninstall_from_dist`, whose boolean
result is discarded; non-dist mode removes the installation directory. -/
def uninstall_package (fs : FS) (package_name : String) (use_dist : Bool)
    (cos : String) (sysOk : Bool) : FS × Res Unit :=
  if package_name ∈ list_installed_packages fs then
    if use_dist then
      match (splitOnChar '@' package_name.data).map String.mk with
      | [profile, version] =>
        match uninstall_from_dist fs profile version cos sysOk with
        | (fs', .ok _) => (fs', .ok ())
        | (fs', .raised e) => (fs', .raised e)
      | _ => (fs, .raised .valueError)
    else (rmDst fs package_name, .ok ())
  else (fs, .raised (.packageNotInstalled package_name))

/- ## Concrete fixtures -/

/-- An empty installation root: nothing exists yet. -/
def fs_empty : FS := { logDir := false, srcDirs := [], versionsDir := none,
                       binDir := false, logFiles := [] }

/-- A catalog holding only the primary package with its source-only `git`
version (no artifacts). -/
def pkgs_git : Profiles :=
  [("radare2", { source := "https://github.com/radareorg/radare2", versions := [gitVersion] })]

/-- A catalog holding the primary package with one release that has a
Debian amd64 artifact. -/
def pkgs_deb : Profiles :=
  [("radare2", { source := "https://github.com/radareorg/radare2",
                 versions := [{ id := "5.9.0",
                                packages := [("deb_x64", "radare2_5.9.0_amd64.deb")] }] })]

/-- An installation root with one installed package directory and the
Windows `bin` directory present. -/
def fs_one : FS := { logDir := true, srcDirs := [],
                     versionsDir := some [⟨"radare2@5.9.0", true⟩],
                     binDir := true, logFiles := [] }

/-- The catalog produced by a rebuild from an empty upstream release list. -/
def catalog_no_releases : Profiles :=
  [("r2frida", { source := "https://github.com/nowsecure/r2frida", versions := [gitVersion] }),
   ("r2dec", { source := "https://github.com/wargio/r2dec-js", versions := [gitVersion] }),
   ("r2yara", { source := "https://github.com/radareorg/r2yara", versions := [gitVersion] }),
   ("r2ghidra", { source := "https://github.com/radareorg/r2ghidra", versions := [gitVersion] }),
   ("r0", { source := "https://github.com/radareorg/r0", versions := [gitVersion] }),
   ("radare2", { source := "https://github.com/radareorg/radare2", versions := [gitVersion] })]

/-- The catalog produced by a rebuild from the single asset-less release
`5.9.0`. -/
def catalog_one_release : Profiles :=
  [("r2frida", { source := "https://github.com/nowsecure/r2frida", versions := [gitVersion] }),
   ("r2dec", { source := "https://github.com/wargio/r2dec-js", versions := [gitVersion] }),
   ("r2yara", { source := "https://github.com/radareorg/r2yara", versions := [gitVersion] }),
   ("r2ghidra", { source := "https://github.com/radareorg/r2ghidra", versions := [gitVersion] }),
   ("r0", { source := "https://github.com/radareorg/r0", versions := [gitVersion] }),
   ("radare2", { source := "https://github.com/radareorg/radare2",
                 versions := [{ id := "5.9.0", packages := [] }, gitVersion] })]

/-- The version-id list of the primary package in a rebuild result (used to
state the catalog-ordering claims on concrete inputs). -/
def radare2VersionIds (r : Res Profiles) : Option (List String) :=
  match r with
  | .ok ps => (dictLookup ps "radare2").map (fun p => p.versions.map (fun v => v.id))
  | .raised _ => none

/- ## Helper lemmas -/

theorem mem_installed_iff (fs : FS) (k : String) :
    k ∈ list_installed_packages fs ↔
      ∃ es, fs.versionsDir = some es ∧ ∃ e, e ∈ es ∧ e.name = k ∧ e.isDir = true := by
  unfold list_installed_packages
  cases h : fs.versionsDir with
  | none => simp
  | some es =>
    simp only [Option.some.injEq, List.mem_map, List.mem_filter]
    constructor
    · rintro ⟨e, ⟨he, hd⟩, hn⟩
      exact ⟨es, rfl, e, he, hn, hd⟩
    · rintro ⟨es', hes', e, he, hn, hd⟩
      cases hes'
      exact ⟨e, ⟨he, hd⟩, hn⟩

theorem list_installed_congr (fs fs' : FS) (h : fs.versionsDir = fs'.versionsDir) :
    list_installed_packages fs = list_installed_packages fs' := by
  unfold list_installed_packages
  rw [h]

theorem rmDst_logDir (fs : FS) (k : String) : (rmDst fs k).logDir = fs.logDir := by
  unfold rmDst
  cases fs.versionsDir
  · rfl
  · dsimp only
    split <;> rfl

theorem rmDst_srcDirs (fs : FS) (k : String) : (rmDst fs k).srcDirs = fs.srcDirs := by
  unfold rmDst
  cases fs.versionsDir
  · rfl
  · dsimp only
    split <;> rfl

theorem rmDst_logFiles (fs : FS) (k : String) : (rmDst fs k).logFiles = fs.logFiles := by
  unfold rmDst
  cases fs.versionsDir
  · rfl
  · dsimp only
    split <;> rfl

theorem rmDst_not_mem (fs : FS) (k : String) : k ∉ list_installed_packages (rmDst fs k) := by
  rw [mem_installed_iff]
  rintro ⟨es', hes', e, he, hn, hd⟩
  obtain ⟨l, s, vd, b, lg⟩ := fs
  cases vd with
  | none =>
    simp only [rmDst] at hes'
    exact Option.noConfusion hes'
  | some es =>
    by_cases hany : es.any (fun e => e.name == k && e.isDir)
    · simp only [rmDst, hany, if_true] at hes'
      cases hes'
      have := List.of_mem_filter he
      rw [hn, hd] at this
      simp at this
    · simp only [rmDst, hany, if_false, Bool.false_eq_true] at hes'
      cases hes'
      apply hany
      rw [List.any_eq_true]
      exact ⟨e, he, by rw [hn, hd]; simp⟩

theorem mkdirDst_ok_fields (fs fs' : FS) (k : String) (h : mkdirDst fs k = .ok fs') :
    fs'.logDir = fs.logDir ∧ fs'.srcDirs = fs.srcDirs ∧
    fs'.binDir = fs.binDir ∧ fs'.logFiles = fs.logFiles := by
  unfold mkdirDst at h
  cases hv : fs.versionsDir with
  | none =>
    rw [hv] at h
    cases h
    exact ⟨rfl, rfl, rfl, rfl⟩
  | some es =>
    rw [hv] at h
    dsimp only at h
    split at h
    · cases h; exact ⟨rfl, rfl, rfl, rfl⟩
    · split at h
      · exact Res.noConfusion h
      · cases h; exact ⟨rfl, rfl, rfl, rfl⟩

theorem mkdirDst_ok_mem (fs fs' : FS) (k : String) (h : mkdirDst fs k = .ok fs') :
    k ∈ list_installed_packages fs' := by
  rw [mem_installed_iff]
  unfold mkdirDst at h
  cases hv : fs.versionsDir with
  | none =>
    rw [hv] at h
    cases h
    exact ⟨[⟨k, true⟩], rfl, ⟨k, true⟩, List.mem_singleton.mpr rfl, rfl, rfl⟩
  | some es =>
    rw [hv] at h
    dsimp only at h
    split at h
    · next hany =>
      cases h
      rw [List.any_eq_true] at hany
      obtain ⟨e, he, hp⟩ := hany
      simp only [Bool.and_eq_true, beq_iff_eq] at hp
      exact ⟨es, hv, e, he, hp.1, hp.2⟩
    · split at h
      · exact Res.noConfusion h
      · cases h
        exact ⟨es ++ [⟨k, true⟩], rfl, ⟨k, true⟩, List.mem_append_right _ (List.mem_singleton.mpr rfl), rfl, rfl⟩

theorem ensureLogSrc_logDir (fs : FS) (profile : String) :
    (ensureLogSrc fs profile).logDir = true := rfl

theorem ensureLogSrc_srcDirs_mem (fs : FS) (profile : String) :
    profile ∈ (ensureLogSrc fs profile).srcDirs := by
  unfold ensureLogSrc
  dsimp only
  split
  · assumption
  · exact List.mem_append_right _ (List.mem_singleton.mpr rfl)

theorem ensureLogSrc_versionsDir (fs : FS) (profile : String) :
    (ensureLogSrc fs profile).versionsDir = fs.versionsDir := rfl

theorem ensureLogSrc_binDir (fs : FS) (profile : String) :
    (ensureLogSrc fs profile).binDir = fs.binDir := rfl

theorem ensureLogSrc_logFiles (fs : FS) (profile : String) :
    (ensureLogSrc fs profile).logFiles = fs.logFiles := rfl

theorem prepareDirs_ok (fs fs3 : FS) (profile k : String)
    (h : prepareDirs fs profile k = .ok fs3) :
    fs3.logDir = true ∧ profile ∈ fs3.srcDirs ∧ k ∈ list_installed_packages fs3 ∧
    fs3.binDir = fs.binDir ∧ fs3.logFiles = fs.logFiles := by
  unfold prepareDirs at h
  obtain ⟨h1, h2, h3, h4⟩ := mkdirDst_ok_fields _ _ _ h
  refine ⟨?_, ?_, mkdirDst_ok_mem _ _ _ h, ?_, ?_⟩
  · rw [h1, ensureLogSrc_logDir]
  · rw [h2]; exact ensureLogSrc_srcDirs_mem fs profile
  · rw [h3, ensureLogSrc_binDir]
  · rw [h4, ensureLogSrc_logFiles]

theorem uninstall_from_dist_versionsDir (fs : FS) (p v cos : String) (sysOk : Bool) :
    (uninstall_from_dist fs p v cos sysOk).1.versionsDir = fs.versionsDir := by
  unfold uninstall_from_dist
  repeat' split
  all_goals rfl

theorem install_windows_versionsDir (fs : FS) (zipOk : Bool) :
    (install_windows_package fs zipOk).1.versionsDir = fs.versionsDir := by
  unfold install_windows_package
  split
  · rfl
  · split
    · next fs' val heq =>
      have := uninstall_from_dist_versionsDir fs "radare2" "latest" "w64" true
      rw [heq] at this
      exact this
    · next fs' e heq =>
      have := uninstall_from_dist_versionsDir fs "radare2" "latest" "w64" true
      rw [heq] at this
      exact this

theorem install_from_dist_versionsDir (pkgs : Profiles) (r2env_path : String) (fs : FS)
    (profile version cos : String) (downloadOk sysOk zipOk : Bool) :
    (install_from_dist pkgs r2env_path fs profile version cos downloadOk sysOk zipOk).1.versionsDir
      = fs.versionsDir := by
  unfold install_from_dist
  split
  · rfl
  · dsimp only
    repeat' split
    all_goals first | rfl | exact install_windows_versionsDir fs zipOk

theorem build_from_source_versionsDir (fs : FS) (cos : String) (use_meson toolsOk buildOk : Bool)
    (logfile : String) :
    (build_from_source fs cos use_meson toolsOk buildOk logfile).1.versionsDir
      = fs.versionsDir := by
  unfold build_from_source
  repeat' split
  all_goals rfl

theorem build_from_source_ok (fs fs4 : FS) (cos : String) (use_meson toolsOk buildOk b : Bool)
    (logfile : String)
    (h : build_from_source fs cos use_meson toolsOk buildOk logfile = (fs4, .ok b)) :
    fs4 = { fs with logFiles := logfile :: fs.logFiles } ∧ b = buildOk := by
  unfold build_from_source at h
  split at h
  · simp at h
  · split at h
    · simp at h
    · rw [Prod.mk.injEq] at h
      exact ⟨h.1.symm, (Res.ok.inj h.2).symm⟩

theorem foldl_buildStep_raised (tag : String) (e : PMErr) (l : List String) :
    l.foldl (buildStep tag) (.raised e) = .raised e := by
  induction l with
  | nil => rfl
  | cons a as ih => rw [List.foldl_cons]; exact ih

theorem dictLookup_insertOverwrite_self (m : List (String × String)) (k v : String) :
    dictLookup (insertOverwrite m k v) k = some v := by
  induction m with
  | nil => simp [insertOverwrite, dictLookup]
  | cons kv rest ih =>
    obtain ⟨k', v'⟩ := kv
    by_cases h : k' = k
    · simp [insertOverwrite, dictLookup, h]
    · simp [insertOverwrite, dictLookup, h, ih]

theorem dictLookup_insertOverwrite_ne (m : List (String × String)) (k v key : String)
    (h : k ≠ key) :
    dictLookup (insertOverwrite m k v) key = dictLookup m key := by
  induction m with
  | nil => simp [insertOverwrite, dictLookup, h]
  | cons kv rest ih =>
    obtain ⟨k', v'⟩ := kv
    by_cases h' : k' = k
    · subst h'
      simp [insertOverwrite, dictLookup, h]
    · simp [insertOverwrite, dictLookup, h']
      by_cases h'' : k' = key <;> simp [h'', ih]

theorem foldl_buildStep_lookup (tag p : String) (l : List String)
    (m₁ m : List (String × String))
    (hnone : ∀ b ∈ l, classify tag b ≠ .ok (some p))
    (h : l.foldl (buildStep tag) (.ok m₁) = .ok m) :
    dictLookup m p = dictLookup m₁ p := by
  induction l generalizing m₁ with
  | nil => cases h; rfl
  | cons b bs ih =>
    rw [List.foldl_cons] at h
    cases hc : classify tag b with
    | raised e =>
      rw [show buildStep tag (.ok m₁) b = .raised e from by simp [buildStep, hc]] at h
      rw [foldl_buildStep_raised] at h
      exact Res.noConfusion h
    | ok o =>
      cases o with
      | none =>
        rw [show buildStep tag (.ok m₁) b = .ok m₁ from by simp [buildStep, hc]] at h
        exact ih _ (fun x hx => hnone x (List.mem_cons_of_mem _ hx)) h
      | some q =>
        have hq : q ≠ p := by
          intro he
          exact hnone b (List.mem_cons_self _ _) (by rw [hc, he])
        rw [show buildStep tag (.ok m₁) b = .ok (insertOverwrite m₁ q b) from by
          simp [buildStep, hc]] at h
        rw [ih _ (fun x hx => hnone x (List.mem_cons_of_mem _ hx)) h]
        exact dictLookup_insertOverwrite_ne _ _ _ _ hq

theorem buildVersions_ids (rs : List Release) (vs : List Version)
    (h : buildVersions rs = .ok vs) :
    vs.map (fun v => v.id) = rs.map (fun r => r.tag_name) := by
  induction rs generalizing vs with
  | nil => cases h; rfl
  | cons r rest ih =>
    unfold buildVersions at h
    cases hbv : buildVersion r with
    | raised e => rw [hbv] at h; exact Res.noConfusion h
    | ok v =>
      rw [hbv] at h
      dsimp only at h
      cases hrest : buildVersions rest with
      | raised e => rw [hrest] at h; exact Res.noConfusion h
      | ok vs' =>
        rw [hrest] at h
        cases h
        have hid : v.id = r.tag_name := by
          unfold buildVersion at hbv
          cases hbp : buildPackages r.tag_name r.assets with
          | raised e => rw [hbp] at hbv; exact Res.noConfusion hbv
          | ok pkgs =>
            rw [hbp] at hbv
            cases hbv
            rfl
        simp [hid, ih vs' hrest]

/- ## Claim theorems -/

/-- C4: the code reaches `"/".join([self._r2env_path, "src", pkgname])` with
`pkgname = None` when the requested (package, version) exists in the catalog
but carries no artifact for the current platform, so the install dies with
an unhandled `TypeError` instead of a clean `NoArtifactForPlatform` error:
at the concrete input `radare2@git` on platform `w64`, the pair is in the
catalog, the artifact resolution yields none, and `_install_from_dist`
raises `TypeError`. -/
theorem C4_typeerror_not_no_artifact :
    if_package_not_available pkgs_git "radare2" "git" = false ∧
    get_pkgname pkgs_git "radare2" "git" "w64" = none ∧
    install_from_dist pkgs_git "/re" fs_empty "radare2" "git" "w64" true true true
      = (fs_empty, .raised .typeError) := by
  decide

/-- C5 (amended): whenever the extension is unrecognized, the first token is
not `radare2`, or the tag is absent from the tokens, `classify` yields no
platform — and the asset contributes no mapping entry — provided the
execution does not hit the `list.remove` `ValueError` (which it does
exactly when the first token is `radare2`, the tag occurs among the
tokens, but not among the tokens left after erasing one `radare2`). -/
theorem C5_preconditions_give_none (tag assetName : String)
    (hpre : dictLookup _VERSION_FILTERS (assetExt assetName) = none
          ∨ (assetTokens assetName).headD "" ≠ "radare2"
          ∨ tag ∉ assetTokens assetName)
    (hsafe : ¬ ((assetTokens assetName).headD "" = "radare2" ∧ tag ∈ assetTokens assetName
                ∧ tag ∉ (assetTokens assetName).erase "radare2")) :
    classify tag assetName = .ok none ∧
    ∀ m : List (String × String), buildStep tag (.ok m) assetName = .ok m := by
  have hcls : classify tag assetName = .ok none := by
    unfold classify
    by_cases h1 : (assetTokens assetName).headD "" = "radare2"
    · rw [if_neg (not_not_intro h1)]
      by_cases h2 : tag ∈ assetTokens assetName
      · rw [if_neg (not_not_intro h2)]
        have h3 : tag ∈ (assetTokens assetName).erase "radare2" := by
          by_contra hno
          exact hsafe ⟨h1, h2, hno⟩
        rw [if_pos h3]
        rcases hpre with hext | hfirst | htag
        · unfold matchFilters
          rw [hext]
        · exact absurd h1 hfirst
        · exact absurd h2 htag
      · rw [if_pos h2]
    · rw [if_pos h1]
  refine ⟨hcls, fun m => ?_⟩
  unfold buildStep
  rw [hcls]

/-- C5 counterexample: for tag `radare2` and asset `radare2-foo.xyz` the
extension is unrecognized, yet `classify` does not return none — the second
`list.remove` raises `ValueError` (the claim asserts none for every such
input). -/
theorem C5_counterexample :
    dictLookup _VERSION_FILTERS (assetExt "radare2-foo.xyz") = none ∧
    classify "radare2" "radare2-foo.xyz" = .raised .valueError ∧
    ¬ classify "radare2" "radare2-foo.xyz" = .ok none := by
  decide

/-- C5 witness: the spec's own example of an unsupported extension,
`radare2-5.9.0-android.apk`, classifies to none and adds no entry. -/
theorem C5_witness :
    classify "5.9.0" "radare2-5.9.0-android.apk" = .ok none ∧
    buildStep "5.9.0" (.ok []) "radare2-5.9.0-android.apk" = .ok [] :=
  ⟨(C5_preconditions_give_none "5.9.0" "radare2-5.9.0-android.apk"
      (Or.inl (by decide)) (by decide)).1,
   (C5_preconditions_give_none "5.9.0" "radare2-5.9.0-android.apk"
      (Or.inl (by decide)) (by decide)).2 []⟩

/-- C6: when two distinct assets of one release classify to the same
platform identifier and no later asset touches that platform, the built
mapping holds the later of the two (last write wins, per platform, per
version). -/
theorem C6_last_write_wins (tag : String) (l0 l1 l2 : List String) (a0 a p : String)
    (m : List (String × String))
    (hb : buildPackages tag (l0 ++ a0 :: l1 ++ a :: l2) = .ok m)
    (_h0 : classify tag a0 = .ok (some p))
    (ha : classify tag a = .ok (some p))
    (_hne : a0 ≠ a)
    (hlast : ∀ b ∈ l2, classify tag b ≠ .ok (some p)) :
    dictLookup m p = some a := by
  unfold buildPackages at hb
  rw [show l0 ++ a0 :: l1 ++ a :: l2 = (l0 ++ a0 :: l1) ++ a :: l2 from by simp] at hb
  rw [List.foldl_append] at hb
  cases hacc : (l0 ++ a0 :: l1).foldl (buildStep tag) (.ok []) with
  | raised e =>
    rw [hacc, List.foldl_cons,
        show buildStep tag (.raised e) a = .raised e from rfl,
        foldl_buildStep_raised] at hb
    exact Res.noConfusion hb
  | ok m₁ =>
    rw [hacc, List.foldl_cons,
        show buildStep tag (.ok m₁) a = .ok (insertOverwrite m₁ p a) from by
          simp [buildStep, ha]] at hb
    rw [foldl_buildStep_lookup tag p l2 _ m hlast hb]
    exact dictLookup_insertOverwrite_self m₁ p a

/-- C6 witness: `radare2-5.9.0-w64.zip` then `radare2_5.9.0_w64.zip` both
classify to `w64`; the mapping holds the second. -/
theorem C6_last_write_wins_witness :
    buildPackages "5.9.0" ["radare2-5.9.0-w64.zip", "radare2_5.9.0_w64.zip"]
      = .ok [("w64", "radare2_5.9.0_w64.zip")] ∧
    dictLookup [("w64", "radare2_5.9.0_w64.zip")] "w64" = some "radare2_5.9.0_w64.zip" :=
  ⟨by decide,
   C6_last_write_wins "5.9.0" [] [] [] "radare2-5.9.0-w64.zip" "radare2_5.9.0_w64.zip"
     "w64" [("w64", "radare2_5.9.0_w64.zip")] (by decide) (by decide) (by decide)
     (by decide) (by simp)⟩

/-- C8: uninstalling a key that the Installed-Package Registry does not list
raises the package-not-installed error and leaves the filesystem exactly as
it was (no writes). -/
theorem C8_uninstall_missing (fs : FS) (k : String) (use_dist : Bool) (cos : String)
    (sysOk : Bool) (h : k ∉ list_installed_packages fs) :
    uninstall_package fs k use_dist cos sysOk = (fs, .raised (.packageNotInstalled k)) := by
  unfold uninstall_package
  rw [if_neg h]

/-- C8 witness: uninstalling from an empty root fails with the error and
changes nothing. -/
theorem C8_uninstall_missing_witness :
    uninstall_package fs_empty "radare2@5.9.0" false "linux" true
      = (fs_empty, .raised (.packageNotInstalled "radare2@5.9.0")) :=
  C8_uninstall_missing fs_empty "radare2@5.9.0" false "linux" true (by decide)

/-- C9: catalog regeneration is deterministic — two rebuilds from the same
upstream release list serialize to byte-identical catalogs (the build and
the serialization are functions of the input alone; orderings are the
explicit insertion orders). -/
theorem C9_deterministic (rs : List Release) (ps1 ps2 : Profiles)
    (h1 : update_radare2_profiles rs = .ok ps1)
    (h2 : update_radare2_profiles rs = .ok ps2) :
    serializeProfiles ps1 = serializeProfiles ps2 := by
  have h := h1.symm.trans h2
  rw [Res.ok.inj h]

/-- C9 witness: two rebuilds from the empty release list agree. -/
theorem C9_deterministic_witness :
    serializeProfiles catalog_no_releases = serializeProfiles catalog_no_releases :=
  C9_deterministic [] catalog_no_releases catalog_no_releases (by decide) (by decide)

/-- C10: when the `versions` directory does not exist the registry lists
nothing (and raises nothing), and a key is listed exactly when a directory
entry of that name exists in it — plain files are excluded. -/
theorem C10_registry_scan (fs : FS) :
    (fs.versionsDir = none → list_installed_packages fs = []) ∧
    (∀ k : String, k ∈ list_installed_packages fs ↔
       ∃ es, fs.versionsDir = some es ∧ ∃ e, e ∈ es ∧ e.name = k ∧ e.isDir = true) := by
  constructor
  · intro h
    unfold list_installed_packages
    rw [h]
  · intro k
    exact mem_installed_iff fs k

/-- C10 witness: a missing `versions` directory yields the empty listing, and
a plain file next to a directory entry is not listed. -/
theorem C10_registry_scan_witness :
    fs_empty.versionsDir = none ∧ list_installed_packages fs_empty = [] :=
  ⟨rfl, (C10_registry_scan fs_empty).1 rfl⟩

/-- C1 (amended): an install request for a (package, version) absent from
the catalog raises the package-not-available error, but only after the log
directory, the source working directory, and the destination directory have
been created; the destination directory is removed again before the error
surfaces (so the key is not listed as installed), while the log and source
directories persist. -/
theorem C1_unknown_version (pkgs : Profiles) (r2env_path : String) (fs fs3 : FS)
    (profile version : String) (um ud : Bool) (cos : String)
    (dOk sOk zOk tOk bOk : Bool) (lf : String)
    (hprep : prepareDirs fs profile (profile ++ "@" ++ version) = .ok fs3)
    (hna : if_package_not_available pkgs profile version = true) :
    (install_package pkgs r2env_path fs profile version um ud cos dOk sOk zOk tOk bOk lf).2
        = .raised (.packageNotAvailable profile version) ∧
    (install_package pkgs r2env_path fs profile version um ud cos dOk sOk zOk tOk bOk lf).1.logDir
        = true ∧
    profile ∈
      (install_package pkgs r2env_path fs profile version um ud cos dOk sOk zOk tOk bOk lf).1.srcDirs ∧
    (profile ++ "@" ++ version) ∉ list_installed_packages
      (install_package pkgs r2env_path fs profile version um ud cos dOk sOk zOk tOk bOk lf).1 := by
  have hr : install_package pkgs r2env_path fs profile version um ud cos dOk sOk zOk tOk bOk lf
      = (rmDst fs3 (profile ++ "@" ++ version),
         .raised (.packageNotAvailable profile version)) := by
    unfold install_package
    rw [hprep]
    dsimp only
    rw [if_pos hna]
  obtain ⟨hA, hB, _, _, _⟩ := prepareDirs_ok fs fs3 profile _ hprep
  rw [hr]
  refine ⟨rfl, ?_, ?_, ?_⟩
  · rw [rmDst_logDir]
    exact hA
  · rw [rmDst_srcDirs]
    exact hB
  · exact rmDst_not_mem fs3 _

/-- C1 counterexample: requesting the unknown `radare2@9.9.9` from an empty
root does raise the validation error, but the filesystem is no longer in
its initial state (the log and source directories were created first), so
the claimed "no filesystem writes" is false. -/
theorem C1_counterexample :
    (install_package pkgs_git "/re" fs_empty "radare2" "9.9.9" false false "linux"
        true true true true true "lf").2 = .raised (.packageNotAvailable "radare2" "9.9.9") ∧
    (install_package pkgs_git "/re" fs_empty "radare2" "9.9.9" false false "linux"
        true true true true true "lf").1 ≠ fs_empty := by
  decide

/-- C1 witness: the amended statement at the concrete unknown request
`radare2@9.9.9` from an empty root. -/
theorem C1_unknown_version_witness :
    (install_package pkgs_git "/re" fs_empty "radare2" "9.9.9" false false "linux"
        true true true true true "lf").2 = .raised (.packageNotAvailable "radare2" "9.9.9") ∧
    (install_package pkgs_git "/re" fs_empty "radare2" "9.9.9" false false "linux"
        true true true true true "lf").1.logDir = true ∧
    "radare2" ∈ (install_package pkgs_git "/re" fs_empty "radare2" "9.9.9" false false "linux"
        true true true true true "lf").1.srcDirs ∧
    "radare2@9.9.9" ∉ list_installed_packages (install_package pkgs_git "/re" fs_empty "radare2"
        "9.9.9" false false "linux" true true true true true "lf").1 :=
  C1_unknown_version pkgs_git "/re" fs_empty
    { logDir := true, srcDirs := ["radare2"], versionsDir := some [⟨"radare2@9.9.9", true⟩],
      binDir := false, logFiles := [] }
    "radare2" "9.9.9" false false "linux" true true true true true "lf"
    (by decide) (by decide)

/-- C2 (amended): when the delegated strategy reports failure through its
return status, the destination directory is removed before the
install-failed error surfaces, so the key is not listed as installed, and
for from-source failures the log file persists and the error carries its
path.  (When the strategy raises an exception instead — e.g. a download
failure — the exception propagates with no rollback; see the
counterexample.) -/
theorem C2_rollback_on_reported_failure (pkgs : Profiles) (r2env_path : String)
    (fs fs3 fs4 : FS) (profile version : String) (um ud : Bool) (cos : String)
    (dOk sOk zOk tOk bOk : Bool) (lf : String)
    (hprep : prepareDirs fs profile (profile ++ "@" ++ version) = .ok fs3)
    (hav : if_package_not_available pkgs profile version = false)
    (hfail : (if ud then install_from_dist pkgs r2env_path fs3 profile version cos dOk sOk zOk
              else build_from_source fs3 cos um tOk bOk lf) = (fs4, .ok false)) :
    (install_package pkgs r2env_path fs profile version um ud cos dOk sOk zOk tOk bOk lf).2
        = .raised (if ud then .installFailedDist profile version
                   else .installFailedBuild profile version lf) ∧
    (profile ++ "@" ++ version) ∉ list_installed_packages
      (install_package pkgs r2env_path fs profile version um ud cos dOk sOk zOk tOk bOk lf).1 ∧
    (ud = false → lf ∈
      (install_package pkgs r2env_path fs profile version um ud cos dOk sOk zOk tOk bOk lf).1.logFiles) := by
  cases ud with
  | true =>
    have hr : install_package pkgs r2env_path fs profile version um true cos dOk sOk zOk tOk bOk lf
        = (rmDst fs4 (profile ++ "@" ++ version),
           .raised (.installFailedDist profile version)) := by
      unfold install_package
      rw [hprep]
      dsimp only
      rw [if_neg (by rw [hav]; exact Bool.false_ne_true)]
      rw [if_pos rfl]
      rw [show install_from_dist pkgs r2env_path fs3 profile version cos dOk sOk zOk
            = (fs4, .ok false) from hfail]
    rw [hr]
    exact ⟨rfl, rmDst_not_mem fs4 _, fun h => absurd h (by simp)⟩
  | false =>
    have hbf : build_from_source fs3 cos um tOk bOk lf = (fs4, .ok false) := hfail
    have hr : install_package pkgs r2env_path fs profile version um false cos dOk sOk zOk tOk bOk lf
        = (rmDst fs4 (profile ++ "@" ++ version),
           .raised (.installFailedBuild profile version lf)) := by
      unfold install_package
      rw [hprep]
      dsimp only
      rw [if_neg (by rw [hav]; exact Bool.false_ne_true)]
      rw [if_neg Bool.false_ne_true]
      rw [hbf]
    obtain ⟨hfs4, -⟩ := build_from_source_ok fs3 fs4 cos um tOk bOk false lf hbf
    rw [hr]
    refine ⟨rfl, rmDst_not_mem fs4 _, fun _ => ?_⟩
    rw [rmDst_logFiles, hfs4]
    exact List.mem_cons_self _ _

/-- C2 counterexample: a binary-distribution install of the available
`radare2@5.9.0` whose download fails surfaces the download error, yet the
destination directory created during preparation is still present — the
registry counts the key as installed after the failure. -/
theorem C2_counterexample :
    (install_package pkgs_deb "/re" fs_empty "radare2" "5.9.0" false true "deb_x64"
        false true true true true "lf").2 = .raised (.downloadFailed "radare2") ∧
    "radare2@5.9.0" ∈ list_installed_packages (install_package pkgs_deb "/re" fs_empty
        "radare2" "5.9.0" false true "deb_x64" false true true true true "lf").1 := by
  decide

/-- C2 witness: a from-source build of the available `radare2@git` whose
build command fails rolls the destination back and keeps the log file. -/
theorem C2_rollback_witness :
    (install_package pkgs_git "/re" fs_empty "radare2" "git" false false "linux"
        true true true true false "lf").2 = .raised (.installFailedBuild "radare2" "git" "lf") ∧
    "radare2@git" ∉ list_installed_packages (install_package pkgs_git "/re" fs_empty "radare2"
        "git" false false "linux" true true true true false "lf").1 ∧
    "lf" ∈ (install_package pkgs_git "/re" fs_empty "radare2" "git" false false "linux"
        true true true true false "lf").1.logFiles := by
  have h := C2_rollback_on_reported_failure pkgs_git "/re" fs_empty
    { logDir := true, srcDirs := ["radare2"], versionsDir := some [⟨"radare2@git", true⟩],
      binDir := false, logFiles := [] }
    { logDir := true, srcDirs := ["radare2"], versionsDir := some [⟨"radare2@git", true⟩],
      binDir := false, logFiles := ["lf"] }
    "radare2" "git" false false "linux" true true true true false "lf"
    (by decide) (by decide) (by decide)
  exact ⟨h.1, h.2.1, h.2.2 rfl⟩

/-- C3 (amended): the rebuilt catalog's version list for the primary package
is the reversal of `[git] ++ releases-as-delivered`: the real releases in
reversed upstream order (oldest first, when the upstream delivers newest
first) followed by the synthetic `git` version as the last element. -/
theorem C3_versions_order (rs : List Release) (ps : Profiles) (prof : Profile)
    (h : update_radare2_profiles rs = .ok ps)
    (hlook : dictLookup ps "radare2" = some prof) :
    prof.versions.map (fun v => v.id) = (rs.map (fun r => r.tag_name)).reverse ++ ["git"] := by
  unfold update_radare2_profiles at h
  cases hbv : buildVersions rs with
  | raised e =>
    rw [hbv] at h
    exact Res.noConfusion h
  | ok vs =>
    rw [hbv] at h
    dsimp only at h
    cases h
    have hp : some prof
        = some (Profile.mk "https://github.com/radareorg/radare2"
                  ((gitVersion :: vs).reverse)) := by
      rw [← hlook]
      rfl
    rw [Option.some.inj hp]
    dsimp only
    rw [List.map_reverse, List.map_cons, List.reverse_cons]
    rw [buildVersions_ids rs vs hbv]
    rfl

/-- C3 counterexample: from the newest-first release list `[5.9.0, 5.8.0]`
(no assets) the rebuilt primary-package version list is
`[5.8.0, 5.9.0, git]`, not the claimed `[git, 5.9.0, 5.8.0]`. -/
theorem C3_counterexample :
    radare2VersionIds (update_radare2_profiles [⟨"5.9.0", []⟩, ⟨"5.8.0", []⟩])
      = some ["5.8.0", "5.9.0", "git"] ∧
    some ["5.8.0", "5.9.0", "git"] ≠ some ["git", "5.9.0", "5.8.0"] := by
  decide

/-- C3 witness: the amended ordering at the one-release input `[5.9.0]`. -/
theorem C3_versions_order_witness :
    (Profile.mk "https://github.com/radareorg/radare2"
        [{ id := "5.9.0", packages := [] }, gitVersion]).versions.map (fun v => v.id)
      = ["5.9.0", "git"] :=
  C3_versions_order [⟨"5.9.0", []⟩] catalog_one_release
    (Profile.mk "https://github.com/radareorg/radare2"
      [{ id := "5.9.0", packages := [] }, gitVersion])
    (by decide) (by decide)

/-- C7 (amended): after a successful install of key `K = profile@version`
the registry lists `K`; after uninstalling `K` in the direct
(non-binary-distribution) mode, the registry no longer lists it.  (In
binary-distribution mode the uninstall dispatches to the platform
uninstaller and never removes the `versions/K` directory, so `K` stays
listed; see the counterexample.) -/
theorem C7_registry_install_uninstall :
    (∀ (pkgs : Profiles) (r2env_path : String) (fs : FS) (profile version : String)
       (um ud : Bool) (cos : String) (dOk sOk zOk tOk bOk : Bool) (lf : String),
       (install_package pkgs r2env_path fs profile version um ud cos dOk sOk zOk tOk bOk lf).2
           = .ok () →
       (profile ++ "@" ++ version) ∈ list_installed_packages
         (install_package pkgs r2env_path fs profile version um ud cos dOk sOk zOk tOk bOk lf).1) ∧
    (∀ (fs : FS) (k cos : String) (sysOk : Bool),
       k ∈ list_installed_packages fs →
       (uninstall_package fs k false cos sysOk).2 = .ok () ∧
       k ∉ list_installed_packages (uninstall_package fs k false cos sysOk).1) := by
  constructor
  · intro pkgs r2env_path fs profile version um ud cos dOk sOk zOk tOk bOk lf hok
    unfold install_package at hok ⊢
    cases hp : prepareDirs fs profile (profile ++ "@" ++ version) with
    | raised e =>
      rw [hp] at hok
      exact Res.noConfusion hok
    | ok fs3 =>
      rw [hp] at hok
      dsimp only at hok ⊢
      obtain ⟨-, -, hmem3, -, -⟩ := prepareDirs_ok fs fs3 profile _ hp
      by_cases hna : if_package_not_available pkgs profile version = true
      · rw [if_pos hna] at hok
        exact Res.noConfusion hok
      · rw [if_neg hna] at hok ⊢
        cases ud with
        | true =>
          rw [if_pos rfl] at hok ⊢
          cases hd : install_from_dist pkgs r2env_path fs3 profile version cos dOk sOk zOk with
          | mk fs4 res =>
            have hv := install_from_dist_versionsDir pkgs r2env_path fs3 profile version cos
              dOk sOk zOk
            rw [hd] at hok hv
            cases res with
            | ok b =>
              cases b with
              | true =>
                show (profile ++ "@" ++ version) ∈ list_installed_packages fs4
                rw [list_installed_congr _ _ hv]
                exact hmem3
              | false => exact Res.noConfusion hok
            | raised e => exact Res.noConfusion hok
        | false =>
          rw [if_neg Bool.false_ne_true] at hok ⊢
          cases hd : build_from_source fs3 cos um tOk bOk lf with
          | mk fs4 res =>
            have hv := build_from_source_versionsDir fs3 cos um tOk bOk lf
            rw [hd] at hok hv
            cases res with
            | ok b =>
              cases b with
              | true =>
                show (profile ++ "@" ++ version) ∈ list_installed_packages fs4
                rw [list_installed_congr _ _ hv]
                exact hmem3
              | false => exact Res.noConfusion hok
            | raised e => exact Res.noConfusion hok
  · intro fs k cos sysOk hmem
    unfold uninstall_package
    rw [if_pos hmem]
    exact ⟨rfl, rmDst_not_mem fs k⟩

/-- C7 counterexample: with the key `radare2@5.9.0` installed and the
Windows `bin` directory present, a binary-distribution uninstall on the
`w64` platform completes without error, yet the registry still lists the
key afterwards — uninstalling in that mode does not remove it. -/
theorem C7_counterexample :
    "radare2@5.9.0" ∈ list_installed_packages fs_one ∧
    (uninstall_package fs_one "radare2@5.9.0" true "w64" true).2 = .ok () ∧
    "radare2@5.9.0" ∈ list_installed_packages
      (uninstall_package fs_one "radare2@5.9.0" true "w64" true).1 := by
  decide

/-- C7 witness: a successful from-source install of `radare2@git` lists the
key, and a direct-mode uninstall of the installed `radare2@5.9.0` delists
it. -/
theorem C7_registry_witness :
    "radare2@git" ∈ list_installed_packages
      (install_package pkgs_git "/re" fs_empty "radare2" "git" false false "linux"
        true true true true true "lf").1 ∧
    ((uninstall_package fs_one "radare2@5.9.0" false "linux" true).2 = .ok () ∧
     "radare2@5.9.0" ∉ list_installed_packages
       (uninstall_package fs_one "radare2@5.9.0" false "linux" true).1) :=
  ⟨C7_registry_install_uninstall.1 pkgs_git "/re" fs_empty "radare2" "git" false false "linux"
      true true true true true "lf" (by decide),
   C7_registry_install_uninstall.2 fs_one "radare2@5.9.0" "linux" true (by decide)⟩

end R2Env
